import Mathlib

/-!
Verification of the reliability-watchdog layer of a browser-automation agent.

The Python sources are embedded shallowly:
* machine floats that only ever undergo addition, comparison, `min`,
  doubling and halving are modelled as rationals (`ℚ`);
* Python dicts are modelled as association lists with dict-style
  (last-write-wins, unique-key) update and lookup helpers;
* polling loops whose elapsed time advances in multiples of 0.5 s are
  modelled in half-second `Nat` ticks with an explicit fuel argument that
  mirrors the loop bound;
* calls into the remote browser (script evaluation, node description) are
  modelled as observation streams or outcome parameters supplied to the
  embedded function, since their results are external inputs.
-/

namespace BrowserUseRsi

/-- Lower-case a string character by character (Python `str.lower` on the
ASCII range used by the sources). -/
def lowerStr (s : String) : String := String.mk (s.toList.map Char.toLower)

/-- Python `sub in hay` substring test. -/
def strContainsSub (hay sub : String) : Bool :=
  (List.range (hay.toList.length + 1)).any fun i =>
    sub.toList.isPrefixOf (hay.toList.drop i)

/-- Dict-style lookup on an association list (`d.get(k)`). -/
def lookupKV {α : Type} (l : List (String × α)) (k : String) : Option α :=
  (l.find? fun p => p.1 = k).map (·.2)

/-- Dict-style assignment `d[k] = v`: unique-key update. -/
def setKV {α : Type} (l : List (String × α)) (k : String) (v : α) :
    List (String × α) :=
  (l.filter fun p => p.1 ≠ k) ++ [(k, v)]

/-- Dict-style removal `d.pop(k, None)`. -/
def delKV {α : Type} (l : List (String × α)) (k : String) : List (String × α) :=
  l.filter fun p => p.1 ≠ k

/-- An absolute on-screen position (`DOMRect`-style coordinates). -/
structure AbsPos where
  x : ℚ
  y : ℚ
deriving DecidableEq

/-- The slice of `EnhancedDOMTreeNode` the watchdogs read.  A `None`
attribute dict is identified with the empty dict (the sources only test
truthiness before reading it), and a `None` `node_name` with `""`
(the sources read `node.node_name or ''`). -/
structure DOMNode where
  target_id : String
  node_id : Nat
  element_index : Option Nat
  node_name : String
  tag_name : String
  attributes : List (String × String)
  absolute_position : Option AbsPos
deriving DecidableEq

/-! ## ElementStalenessWatchdog: best-match scoring (C1) -/

/-- `_find_by_element_characteristics` per-candidate score: the body of the
`for fresh_node in fresh_selector_map.values()` loop. -/
def matchScore (stale fresh : DOMNode) : Nat :=
  let tagScore :=
    if stale.node_name ≠ "" ∧ fresh.node_name ≠ "" ∧
        lowerStr stale.node_name = lowerStr fresh.node_name then 10 else 0
  let attrScore :=
    if stale.attributes ≠ [] ∧ fresh.attributes ≠ [] then
      2 * (stale.attributes.filter fun kv =>
        lookupKV fresh.attributes kv.1 = some kv.2).length
    else 0
  let posScore :=
    match stale.absolute_position, fresh.absolute_position with
    | some p, some q => if |p.x - q.x| < 50 ∧ |p.y - q.y| < 50 then 5 else 0
    | _, _ => 0
  tagScore + attrScore + posScore

/-- The best-match accumulator loop of `_find_by_element_characteristics`:
`best_match` is replaced when `score > best_match_score and score >= 15`. -/
def findBestAux (stale : DOMNode) :
    List DOMNode → Nat → Option DOMNode → Option DOMNode
  | [], _, best => best
  | c :: rest, bestScore, best =>
    let s := matchScore stale c
    if bestScore < s ∧ 15 ≤ s then findBestAux stale rest s (some c)
    else findBestAux stale rest bestScore best

/-- `_find_by_element_characteristics`: scan the fresh selector map in index
iteration order, starting from score 0 and no best match. -/
def findByElementCharacteristics (stale : DOMNode)
    (freshSelectorMap : List (Nat × DOMNode)) : Option DOMNode :=
  findBestAux stale (freshSelectorMap.map (·.2)) 0 none

/-! ## ElementStalenessWatchdog: staleness check (C2) -/

/-- The outcome of the `DOM.describeNode` call issued by
`_check_element_staleness`: the protocol call failed with a message, or
succeeded returning the current node name, or the session itself could not
be obtained (the outer `except` path). -/
inductive NodeQueryOutcome where
  | failure (msg : String)
  | success (nodeName : String)
  | sessionError
deriving DecidableEq

/-- The `stale_indicators` list of `_check_element_staleness`. -/
def staleIndicators : List String :=
  ["node not found", "could not find node", "invalid node id",
   "node is not attached", "disconnected frame",
   "execution context destroyed"]

/-- Modelled from the spec: the five indicator substrings the spec names for
the staleness classification ("node not found", "invalid node id", "node is
not attached", "disconnected frame", "execution context destroyed"); kept
separately from `staleIndicators` to compare the spec's list with the
source's. -/
def specStaleIndicators : List String :=
  ["node not found", "invalid node id", "node is not attached",
   "disconnected frame", "execution context destroyed"]

/-- `_check_element_staleness`, with the result of the node-description
query supplied as an explicit outcome.  In the success case the returned
node name is lower-cased before the comparison, exactly as in the source. -/
def checkElementStaleness (node : DOMNode) (q : NodeQueryOutcome) : Bool :=
  if node.target_id = "" then false
  else
    match q with
    | .sessionError => false
    | .failure msg =>
      let errorStr := lowerStr msg
      staleIndicators.any fun ind => strContainsSub errorStr ind
    | .success nodeName =>
      let originalName := node.node_name
      let currentName := lowerStr nodeName
      if originalName ≠ "" ∧ currentName ≠ "" ∧
          lowerStr originalName ≠ currentName then true else false

/-! ## ElementStalenessWatchdog: retry bookkeeping (C9) -/

/-- Render an optional element index the way a Python f-string renders
`element_index` (an int or `None`). -/
def optIdxStr : Option Nat → String
  | some i => toString i
  | none => "None"

/-- `_get_element_key`. -/
def elementKey (n : DOMNode) : String :=
  n.target_id ++ "_" ++ optIdxStr n.element_index ++ "_" ++ toString n.node_id

/-- The composite retry key `f"{action_type}_{element_key}"`. -/
def retryKey (actionType : String) (n : DOMNode) : String :=
  actionType ++ "_" ++ elementKey n

/-- `_get_retry_count`. -/
def getRetryCount (counts : List (String × Nat)) (k : String) : Nat :=
  (lookupKV counts k).getD 0

/-- `_increment_retry_count`. -/
def incrementRetryCount (counts : List (String × Nat)) (k : String) :
    List (String × Nat) :=
  setKV counts k (getRetryCount counts k + 1)

/-- `_reset_retry_count` (`pop(key, None)`). -/
def resetRetryCount (counts : List (String × Nat)) (k : String) :
    List (String × Nat) :=
  delKV counts k

/-- A `BrowserErrorEvent` as dispatched on retry-limit exhaustion, with the
structured `details` map flattened into fields. -/
structure StaleErrorEvent where
  error_type : String
  message : String
  action_type : String
  element_index : Option Nat
  retry_count : Nat
deriving DecidableEq

/-- A triggering automation event: the recoverable element reference plus
all its remaining payload, abstracted as `rest` so that "exactly one field
is replaced" is expressible. -/
structure ActionEvent (α : Type) where
  node : DOMNode
  rest : α
deriving DecidableEq

/-- `_update_event_with_fresh_element`: overwrite the event's `node`. -/
def updateEventWithFreshElement {α : Type} (e : ActionEvent α)
    (fresh : DOMNode) : ActionEvent α :=
  { e with node := fresh }

/-- Result of one `_handle_stale_element` call: the retry-count map after
the call, the error event emitted (if any), whether a DOM
rebuild + fresh-element lookup was attempted, and the (possibly updated)
triggering event. -/
structure StaleHandling (α : Type) where
  counts : List (String × Nat)
  emitted : Option StaleErrorEvent
  recoveryAttempted : Bool
  event : ActionEvent α
deriving DecidableEq

/-- `_handle_stale_element`, with the outcome of
`_find_fresh_element_equivalent` (which runs against the freshly rebuilt
index) supplied as `resolution`. -/
def handleStaleElement {α : Type} (counts : List (String × Nat))
    (actionType : String) (staleNode : DOMNode) (e : ActionEvent α)
    (resolution : Option DOMNode) : StaleHandling α :=
  let rk := retryKey actionType staleNode
  let rc := getRetryCount counts rk
  if 2 ≤ rc then
    { counts := counts
      emitted := some
        { error_type := "ElementStalenessRetryExceeded"
          message := "Element staleness retry limit exceeded for " ++
            actionType ++ " on element " ++ optIdxStr staleNode.element_index
          action_type := actionType
          element_index := staleNode.element_index
          retry_count := rc }
      recoveryAttempted := false
      event := e }
  else
    let counts1 := incrementRetryCount counts rk
    match resolution with
    | some fresh =>
      { counts := resetRetryCount counts1 rk
        emitted := none
        recoveryAttempted := true
        event := updateEventWithFreshElement e fresh }
    | none =>
      { counts := counts1
        emitted := none
        recoveryAttempted := true
        event := e }

/-- Iterate `handleStaleElement` with a recovery that always fails,
counting how many recovery attempts (rebuild + lookup) are performed. -/
def iterStaleFailures {α : Type} (actionType : String) (staleNode : DOMNode)
    (e : ActionEvent α) : Nat → List (String × Nat) × Nat
  | 0 => ([], 0)
  | k + 1 =>
    let (c, m) := iterStaleFailures actionType staleNode e k
    let r := handleStaleElement c actionType staleNode e none
    (r.counts, m + (if r.recoveryAttempted then 1 else 0))

/-! ## FormReliabilityWatchdog: submission outcome classification (C3) -/

/-- The page-state snapshot captured by `_capture_page_state`. -/
structure PageState where
  url : String
  title : String
  hasErrorMessages : Bool
  hasSuccessMessages : Bool
  hasLoadingIndicators : Bool
  formCount : Nat
  readyState : String
deriving DecidableEq

/-- Outcome of `_verify_form_submission_success`, read off from which
branch returns / which message is logged. -/
inductive FormOutcome where
  | successUrlChanged
  | successFlag
  | failureDetected
  | indeterminate
  | silent
deriving DecidableEq

/-- The after-timeout final check of `_verify_form_submission_success`
(a fresh capture `final` is compared with the pre-submission state). -/
def formTimeoutResult (pre finalState : PageState) : FormOutcome :=
  if finalState.url = pre.url ∧ finalState.hasSuccessMessages = false then
    .indeterminate
  else .silent

/-- The polling loop of `_verify_form_submission_success` in half-second
units: `max_wait_time = 10.0` is 20 units, the normal tick advances
elapsed by 1 unit and the loading tick by 2 units.  `obs n` is the
snapshot captured on the n-th loop iteration.  The fuel starts at 20 and
cannot run out before `elapsed` reaches 20 since every iteration advances
`elapsed` by at least one unit. -/
def verifyFormAux (pre finalState : PageState) (obs : Nat → PageState) :
    Nat → Nat → Nat → FormOutcome
  | 0, _, _ => formTimeoutResult pre finalState
  | fuel + 1, elapsed, n =>
    if 20 ≤ elapsed then formTimeoutResult pre finalState
    else
      let cur := obs n
      if cur.url ≠ pre.url then .successUrlChanged
      else if cur.hasSuccessMessages then .successFlag
      else if cur.hasErrorMessages then .failureDetected
      else if cur.hasLoadingIndicators then
        verifyFormAux pre finalState obs fuel (elapsed + 2) (n + 1)
      else verifyFormAux pre finalState obs fuel (elapsed + 1) (n + 1)

/-- `_verify_form_submission_success` (after the fixed 1.0 s settle delay of
`_track_form_submission`). -/
def verifyFormSubmission (pre finalState : PageState)
    (obs : Nat → PageState) : FormOutcome :=
  verifyFormAux pre finalState obs 20 0 0

/-- One error element as inspected by `_handle_form_submission_error`:
its trimmed text content and whether its computed display is not `none`. -/
structure ErrorElem where
  text : String
  visible : Bool
deriving DecidableEq

/-- The error-message extraction script of `_handle_form_submission_error`:
keep visible elements with non-empty trimmed text, then the first three. -/
def extractErrorMessages (elems : List ErrorElem) : List String :=
  ((elems.filter fun el => el.visible && el.text ≠ "").take 3).map (·.text)

/-! ## NetworkReliabilityWatchdog: failure ledger (C4) and retry policy (C5) -/

/-- The `network_keywords` list of `on_NavigationCompleteEvent`. -/
def networkKeywords : List String :=
  ["net::err_", "dns_probe_finished", "connection_refused",
   "connection_timed_out", "network_changed", "internet_disconnected",
   "name_not_resolved", "connection_reset", "ssl_protocol_error", "cert_",
   "timeout", "failed to load", "server not found"]

/-- `is_network_error` of `on_NavigationCompleteEvent`. -/
def isNetworkError (errorMessage : String) : Bool :=
  networkKeywords.any fun k => strContainsSub (lowerStr errorMessage) k

/-- The watchdog's two per-URL maps: `_network_failure_count` and
`_last_network_failure` (timestamps in seconds). -/
structure NetworkState where
  failures : List (String × Nat)
  lastFailure : List (String × ℚ)
deriving DecidableEq

def emptyNetworkState : NetworkState := { failures := [], lastFailure := [] }

/-- The sweep in `on_NavigationStartedEvent`: drop every URL whose last
failure is more than 300 s old from both maps. -/
def onNavigationStartedNet (st : NetworkState) (now : ℚ) : NetworkState :=
  let expired := st.lastFailure.filter fun p => decide (300 < now - p.2)
  { failures := st.failures.filter fun p => expired.all fun q => q.1 ≠ p.1
    lastFailure := st.lastFailure.filter fun p => !decide (300 < now - p.2) }

/-- The bookkeeping prefix of `_handle_network_error`: bump the failure
count and stamp the failure time. -/
def recordNetworkFailure (st : NetworkState) (url : String) (now : ℚ) :
    NetworkState :=
  let c := (lookupKV st.failures url).getD 0 + 1
  { failures := setKV st.failures url c
    lastFailure := setKV st.lastFailure url now }

/-- `on_NavigationCompleteEvent`'s effect on the ledger: success clears the
URL's entries; a network-classified error records a failure; any other
error leaves the ledger alone. -/
def onNavigationCompleteNet (st : NetworkState) (url : String)
    (errorMessage : Option String) (now : ℚ) : NetworkState :=
  match errorMessage with
  | none => { failures := delKV st.failures url
              lastFailure := delKV st.lastFailure url }
  | some msg =>
    if isNetworkError msg then recordNetworkFailure st url now else st

/-- One failed navigation as the event bus delivers it: the
`NavigationStartedEvent` sweep followed by the failing
`NavigationCompleteEvent`. -/
def navFailureCycle (st : NetworkState) (url msg : String) (now : ℚ) :
    NetworkState :=
  onNavigationCompleteNet (onNavigationStartedNet st now) url (some msg) now

/-- The current failure count recorded for a URL, if any. -/
def failureCountOf (st : NetworkState) (url : String) : Option Nat :=
  lookupKV st.failures url

/-- The `permanent_errors` list of `_calculate_retry_strategy`. -/
def permanentNavErrors : List String :=
  ["name_not_resolved", "dns_probe_finished_nxdomain",
   "cert_authority_invalid", "cert_common_name_invalid"]

/-- `_calculate_retry_strategy`.  `failureCount` is the one-based count the
caller just recorded; `jitter` is the value `random.uniform(0, 1.0)` drew,
passed explicitly.  The exponent is computed over `ℤ` because Python's
`2 ** (failure_count - 1)` is a signed exponent. -/
def calculateRetryStrategy (errorMessage : String) (failureCount : Nat)
    (jitter : ℚ) : Bool × ℚ :=
  let errorLower := lowerStr errorMessage
  if permanentNavErrors.any (fun p => strContainsSub errorLower p) then
    (false, 0)
  else if 3 ≤ failureCount then (false, 0)
  else (true, min (2 * (2 : ℚ) ^ ((failureCount : ℤ) - 1)) 30 + jitter)

/-! ## ErrorClassifier (C5, C10) -/

inductive ErrorCategory where
  | retryableNetwork
  | retryableTiming
  | retryableResource
  | retryableStaleElement
  | permanentInvalidInput
  | permanentNotFound
  | permanentAccessDenied
  | permanentConfiguration
  | unknown
deriving DecidableEq

/-- `ErrorClassificationResult`. -/
structure ErrorClassificationResult where
  category : ErrorCategory
  should_retry : Bool
  retry_delay : ℚ
  max_retries : Nat
  user_message : String
  technical_details : String
deriving DecidableEq

/-- The `ErrorClassificationResult.__init__` defaulting: a falsy (absent or
empty) `user_message` becomes "An error occurred", a falsy
`technical_details` becomes the empty string. -/
def mkClassificationResult (cat : ErrorCategory) (sr : Bool) (rd : ℚ)
    (mr : Nat) (um td : Option String) : ErrorClassificationResult :=
  { category := cat
    should_retry := sr
    retry_delay := rd
    max_retries := mr
    user_message :=
      match um with
      | some m => if m = "" then "An error occurred" else m
      | none => "An error occurred"
    technical_details := td.getD "" }

/-- Matching of one classifier regex against a (pre-lowered) error string.
Every pattern in the source is a list of literal fragments joined by
`.*`, so a pattern is embedded as its fragment list; `re.search` succeeds
iff the fragments occur in order with the gaps between consecutive
fragments free of newlines (`.` does not match a newline). -/
def fragsMatchFrom : List Char → List (List Char) → Bool
  | _, [] => true
  | s, f :: fs =>
    (List.range (s.length + 1)).any fun i =>
      ((s.take i).all fun c => c ≠ '\n') && f.isPrefixOf (s.drop i) &&
        fragsMatchFrom ((s.drop i).drop f.length) fs

/-- `re.search(pattern, s)` for a fragment pattern: the match may start at
any position of `s`. -/
def regexSearch (pat : List String) (s : String) : Bool :=
  match pat with
  | [] => true
  | f :: fs =>
    let l := s.toList
    (List.range (l.length + 1)).any fun j =>
      f.toList.isPrefixOf (l.drop j) &&
        fragsMatchFrom ((l.drop j).drop f.toList.length) (fs.map (·.toList))

def networkPatterns : List (List String × String) :=
  [(["net::err_"], "Network error"),
   (["connection", "refuse"], "Connection refused"),
   (["connection", "timeout"], "Connection timeout"),
   (["dns", "not", "resolv"], "DNS resolution failed"),
   (["name", "not", "resolv"], "Domain name resolution failed"),
   (["internet", "disconnect"], "Internet connection lost"),
   (["network", "chang"], "Network configuration changed"),
   (["ssl", "protocol", "error"], "SSL/TLS protocol error"),
   (["cert", "error"], "Certificate error"),
   (["failed to fetch"], "Network fetch failed"),
   (["load", "fail"], "Resource load failed")]

def timingPatterns : List (List String × String) :=
  [(["timeout"], "Operation timed out"),
   (["wait", "timeout"], "Wait operation timed out"),
   (["element", "not", "found", "within"], "Element detection timeout"),
   (["page", "load", "timeout"], "Page load timeout"),
   (["navigation", "timeout"], "Navigation timeout")]

def resourcePatterns : List (List String × String) :=
  [(["insufficient", "resource"], "Insufficient resources"),
   (["memory", "exceed"], "Memory limit exceeded"),
   (["disk", "full"], "Disk space full"),
   (["too", "many", "request"], "Rate limit exceeded"),
   (["service", "unavailable"], "Service temporarily unavailable"),
   (["server", "error"], "Server error"),
   (["internal", "error"], "Internal server error")]

def staleElementPatterns : List (List String × String) :=
  [(["stale", "element"], "Stale element reference"),
   (["element", "no", "longer", "attach"], "Element detached from DOM"),
   (["node", "not", "found"], "DOM node not found"),
   (["invalid", "node", "id"], "Invalid node identifier"),
   (["element", "reference", "invalid"], "Invalid element reference"),
   (["execution", "context", "destroy"], "Execution context destroyed")]

def invalidInputPatterns : List (List String × String) :=
  [(["invalid", "index"], "Invalid element index"),
   (["element", "index", "not", "found"], "Element index not found"),
   (["parameter", "missing"], "Required parameter missing"),
   (["invalid", "parameter"], "Invalid parameter value"),
   (["malformed", "url"], "Malformed URL"),
   (["invalid", "selector"], "Invalid CSS selector")]

def notFoundPatterns : List (List String × String) :=
  [(["not", "found", "in", "browser", "state"], "Element not in browser state"),
   (["text", "not", "found", "on", "page"], "Text not found on page"),
   (["file", "not", "exist"], "File does not exist"),
   (["path", "not", "exist"], "Path does not exist"),
   (["page", "not", "found"], "Page not found (404)")]

def accessDeniedPatterns : List (List String × String) :=
  [(["access", "denied"], "Access denied"),
   (["permission", "denied"], "Permission denied"),
   (["unauthorized"], "Unauthorized access"),
   (["forbidden"], "Forbidden access"),
   (["authentication", "required"], "Authentication required")]

def configurationPatterns : List (List String × String) :=
  [(["cdp", "client", "not", "initialize"], "Browser connection not initialized"),
   (["browser", "not", "start"], "Browser failed to start"),
   (["invalid", "configuration"], "Invalid configuration"),
   (["missing", "dependency"], "Missing dependency"),
   (["incompatible", "version"], "Incompatible version")]

/-- Description of the first pattern in a category list matching the
lowered error string, if any. -/
def firstPatternMatch (pats : List (List String × String)) (es : String) :
    Option String :=
  (pats.find? fun pr => regexSearch pr.1 es).map (·.2)

/-- A Python exception as `classify_error` observes it: `str(error)`, the
type name, and whether it is a `TimeoutError` instance. -/
structure PyError where
  text : String
  typeName : String
  isTimeoutError : Bool
deriving DecidableEq

/-- `classify_error`.  The `actionName` and `context` parameters are
declared exactly as in the source signature; the body never reads them. -/
def classifyError (error : PyError) (actionName : String)
    (context : Option (List (String × String))) : ErrorClassificationResult :=
  let errorStr := lowerStr error.text
  match firstPatternMatch networkPatterns errorStr with
  | some d =>
    mkClassificationResult .retryableNetwork true 2 3
      (some ("Network issue: " ++ d ++ ". Retrying...")) (some errorStr)
  | none =>
  match firstPatternMatch timingPatterns errorStr with
  | some d =>
    mkClassificationResult .retryableTiming true 3 2
      (some ("Timing issue: " ++ d ++ ". Retrying with longer timeout..."))
      (some errorStr)
  | none =>
  match firstPatternMatch resourcePatterns errorStr with
  | some d =>
    mkClassificationResult .retryableResource true 5 2
      (some ("Resource issue: " ++ d ++ ". Waiting before retry..."))
      (some errorStr)
  | none =>
  match firstPatternMatch staleElementPatterns errorStr with
  | some d =>
    mkClassificationResult .retryableStaleElement true (1/2) 2
      (some ("Element became stale: " ++ d ++ ". Refreshing and retrying..."))
      (some errorStr)
  | none =>
  match firstPatternMatch invalidInputPatterns errorStr with
  | some d =>
    mkClassificationResult .permanentInvalidInput false 0 0
      (some ("Invalid input: " ++ d ++ ". Please check your parameters."))
      (some errorStr)
  | none =>
  match firstPatternMatch notFoundPatterns errorStr with
  | some d =>
    mkClassificationResult .permanentNotFound false 0 0
      (some ("Not found: " ++ d ++ ". The requested item is not available."))
      (some errorStr)
  | none =>
  match firstPatternMatch accessDeniedPatterns errorStr with
  | some d =>
    mkClassificationResult .permanentAccessDenied false 0 0
      (some ("Access denied: " ++ d ++ ". Check permissions or authentication."))
      (some errorStr)
  | none =>
  match firstPatternMatch configurationPatterns errorStr with
  | some d =>
    mkClassificationResult .permanentConfiguration false 0 0
      (some ("Configuration error: " ++ d ++ ". Check system setup."))
      (some errorStr)
  | none =>
  if error.isTimeoutError then
    mkClassificationResult .retryableTiming true 3 2
      (some "Operation timed out. Retrying with extended timeout...")
      (some errorStr)
  else
    mkClassificationResult .unknown false 0 0
      (some "An unexpected error occurred. Please try the action again manually.")
      (some (error.typeName ++ ": " ++ errorStr))

/-- `get_retry_strategy`.  `jitter` is the `random.uniform(0, 1.0)` draw,
only consumed by the resource branch. -/
def getRetryStrategy (c : ErrorClassificationResult) (attemptNumber : Nat)
    (jitter : ℚ) : Bool × ℚ :=
  if c.should_retry = false then (false, 0)
  else if c.max_retries ≤ attemptNumber then (false, 0)
  else
    let base := c.retry_delay
    let delay :=
      match c.category with
      | .retryableNetwork => base * (2 : ℚ) ^ attemptNumber
      | .retryableTiming => base + attemptNumber * 2
      | .retryableResource => base * (3 / 2 : ℚ) ^ attemptNumber + jitter
      | .retryableStaleElement => base
      | _ => base
    (true, min delay 30)

/-! ## DynamicContentWatchdog: content stabilization (C6) -/

/-- Outcome of `_wait_for_content_stabilization`: the loop `break`s with
"stabilized" at some tick, or runs out its timeout. -/
inductive StabOutcome where
  | stabilized (tick : Nat)
  | timeout
deriving DecidableEq

/-- `_get_content_hash` with the n-th evaluation outcome supplied as
`fetch n`: a failure (exception or missing value) yields the constant
string "0". -/
def obsHash (fetch : Nat → Option String) (n : Nat) : String :=
  (fetch n).getD "0"

/-- The polling loop of `_wait_for_content_stabilization` in half-second
ticks: timeout 15.0 s is 30 ticks, the stability window 2.0 s is 4 ticks.
State: current tick, `last_content_hash`, `stable_start_time`.  On a
changed hash the stability start is cleared; on an unchanged hash it is
set (if unset) or checked against the window; loading activity observed
after the hash comparison clears it again. -/
def stabAux (h : Nat → String) (load : Nat → Bool) :
    Nat → Nat → Option String → Option Nat → StabOutcome
  | 0, _, _, _ => .timeout
  | fuel + 1, t, lastHash, stableStart =>
    let c := h t
    if lastHash = some c then
      match stableStart with
      | some s =>
        if 4 ≤ t - s then .stabilized t
        else stabAux h load fuel (t + 1) (some c)
          (if load t then none else some s)
      | none =>
        stabAux h load fuel (t + 1) (some c)
          (if load t then none else some t)
    else
      stabAux h load fuel (t + 1) (some c) none

/-- `_wait_for_content_stabilization` with the default 15 s timeout. -/
def waitForContentStabilization (fetch : Nat → Option String)
    (load : Nat → Bool) : StabOutcome :=
  stabAux (obsHash fetch) load 30 0 none none

/-! ## EnhancedNavigationWatchdog: content verification and reload (C7) -/

/-- The structured result of the content-inspection script run by
`_verify_content_loaded`. -/
structure ContentData where
  contentFound : Bool
  contentElements : Nat
  textLength : Nat
  hasImages : Bool
  hasLinks : Bool
deriving DecidableEq

/-- The sufficiency test of `_verify_content_loaded`:
`contentFound or textLength > 100 or hasLinks`. -/
def contentSufficient (c : ContentData) : Bool :=
  c.contentFound || decide (100 < c.textLength) || c.hasLinks

/-- A `Page.reload` request as issued by `_consider_page_reload`.  The
source calls `Page.reload(session_id=...)` without an `ignoreCache`
parameter, so the request carries the protocol default
`ignoreCache = false`. -/
structure ReloadRequest where
  ignoreCache : Bool
deriving DecidableEq

/-- `_consider_page_reload` acting on the `_loading_retry_count` map:
returns the updated map and the reload request issued, if any. -/
def considerPageReload (counts : List (String × Nat)) (url : String) :
    List (String × Nat) × Option ReloadRequest :=
  let rc := (lookupKV counts url).getD 0
  if rc < 2 then (setKV counts url (rc + 1), some { ignoreCache := false })
  else (counts, none)

/-- `_verify_content_loaded`'s decision given the inspected content data:
sufficient content leaves the state alone, insufficient content defers to
`_consider_page_reload`. -/
def verifyContentLoaded (counts : List (String × Nat)) (url : String)
    (c : ContentData) : List (String × Nat) × Option ReloadRequest :=
  if contentSufficient c then (counts, none)
  else considerPageReload counts url

/-- Iterate `verifyContentLoaded` on a page whose content never becomes
sufficient, counting the reload requests issued. -/
def iterInsufficientContent (url : String) (c : ContentData) :
    Nat → List (String × Nat) × Nat
  | 0 => ([], 0)
  | k + 1 =>
    let (st, m) := iterInsufficientContent url c k
    let (st2, r) := verifyContentLoaded st url c
    (st2, m + (if r.isSome then 1 else 0))

/-! ## FormReliabilityWatchdog: click handler (C8) -/

/-- Dict-style `element.attributes.get(k, '')`. -/
def getAttrDefault (attrs : List (String × String)) (k : String) : String :=
  (lookupKV attrs k).getD ""

/-- The `submit_keywords` list of `_is_likely_submit_button`. -/
def submitKeywords : List String :=
  ["submit", "send", "save", "continue", "proceed", "next", "login",
   "sign in", "register", "sign up", "search", "go", "apply", "confirm",
   "create", "add", "update"]

/-- `_is_likely_submit_button`.  `textRes` is the outcome of the call
`element.get_all_children_text(max_depth=2)` — a method of the external
DOM-snapshot component (not under the verified sources), which like any
call can raise; an exception propagates because this helper has no
handler. -/
def isLikelySubmitButton (textRes : Except String String) :
    Except String Bool :=
  match textRes with
  | .error e => .error e
  | .ok txt =>
    .ok (submitKeywords.any fun kw => strContainsSub (lowerStr txt) kw)

/-- `on_ClickElementEvent` of the form-reliability watchdog, as a function
from the event's node and the text-extraction outcome to the handler's own
outcome: `.ok` when the handler returns normally, `.error` when an
exception escapes it.  `_track_form_submission` wraps its whole body in
`try/except`, so the tracking path always returns normally; the only
unguarded call is `_is_likely_submit_button`, reached when the tag / type /
role disjuncts are all false (Python `or` short-circuits). -/
def onClickElementEvent (node : Option DOMNode)
    (textRes : Except String String) : Except String Unit :=
  match node with
  | none => .ok ()
  | some el =>
    let tagName := if el.tag_name ≠ "" then lowerStr el.tag_name else ""
    let elementType :=
      if el.attributes ≠ [] then lowerStr (getAttrDefault el.attributes "type")
      else ""
    let elementRole :=
      if el.attributes ≠ [] then lowerStr (getAttrDefault el.attributes "role")
      else ""
    if (tagName = "button" ∧ (elementType = "submit" ∨ elementType = "")) ∨
        (tagName = "input" ∧ elementType = "submit") ∨
        elementRole = "button" then
      .ok ()
    else
      match isLikelySubmitButton textRes with
      | .error e => .error e
      | .ok _ => .ok ()

/-! ## Declarative companions for the stabilization loop -/

/-- Whether the hash observed at tick `t` differs from the previous tick's
(tick 0 always counts as changed: `last_content_hash` starts as `None`,
which never equals a string). -/
def changedAtB (h : Nat → String) : Nat → Bool
  | 0 => true
  | n + 1 => decide (h (n + 1) ≠ h n)

/-- The `last_content_hash` variable as the loop enters tick `t`. -/
def lastHashOf (h : Nat → String) : Nat → Option String
  | 0 => none
  | t + 1 => some (h t)

/-- The `stable_start_time` variable as the loop enters tick `t`. -/
def startOf (h : Nat → String) (load : Nat → Bool) : Nat → Option Nat
  | 0 => none
  | t + 1 =>
    if load t then none
    else if changedAtB h t then none
    else
      match startOf h load t with
      | none => some t
      | some s => some s

/-- Whether the loop `break`s with "stabilized" at tick `t`. -/
def breakCondB (h : Nat → String) (load : Nat → Bool) (t : Nat) : Bool :=
  !changedAtB h t &&
    (match startOf h load t with
     | some s => decide (4 ≤ t - s)
     | none => false)

/-- The claim-level stability condition at tick `t`: the fingerprint has
been unchanged over the window of the last 4 inter-tick gaps (2.0 s) up to
and including `t`, with no loading activity observed at the window's ticks
before `t` (the tick that breaks never consults the loading signal). -/
def CleanWindow (h : Nat → String) (load : Nat → Bool) (t : Nat) : Prop :=
  5 ≤ t ∧ (∀ u, t - 4 ≤ u → u ≤ t → h u = h (u - 1)) ∧
    ∀ u, t - 4 ≤ u → u < t → load u = false

/-! ## Concrete instances used by witnesses and counterexamples -/

/-- The spec's worked stale-element example: a button with id "submit-1"
at (100, 200). -/
def staleButtonEx : DOMNode :=
  { target_id := "t", node_id := 1, element_index := some 5,
    node_name := "BUTTON", tag_name := "button",
    attributes := [("id", "submit-1"), ("class", "primary"), ("name", "go")],
    absolute_position := some ⟨100, 200⟩ }

/-- A candidate sharing the tag and all three attributes of
`staleButtonEx` but with no recorded position (score 10 + 6 = 16). -/
def richButtonEx : DOMNode :=
  { target_id := "t", node_id := 11, element_index := some 7,
    node_name := "button", tag_name := "button",
    attributes := [("id", "submit-1"), ("class", "primary"), ("name", "go")],
    absolute_position := none }

/-- A fresh candidate sharing tag, id attribute, and position within
50 px of `staleButtonEx` (score 10 + 2 + 5 = 17). -/
def freshButtonEx : DOMNode :=
  { target_id := "t", node_id := 9, element_index := some 7,
    node_name := "button", tag_name := "button",
    attributes := [("id", "submit-1")],
    absolute_position := some ⟨120, 210⟩ }

/-- A fresh candidate sharing only the tag with `staleButtonEx`
(score 10). -/
def tagOnlyButtonEx : DOMNode :=
  { target_id := "t", node_id := 8, element_index := some 6,
    node_name := "BUTTON", tag_name := "button",
    attributes := [("cls", "other")],
    absolute_position := none }

/-- A plain div with no attributes: none of the tag / type / role submit
disjuncts hold, so the click handler consults the text heuristic. -/
def plainDivEx : DOMNode :=
  { target_id := "t", node_id := 3, element_index := some 1,
    node_name := "DIV", tag_name := "div", attributes := [],
    absolute_position := none }

/-- A canonical retryable network error. -/
def netResetError : PyError :=
  { text := "net::err_connection_reset", typeName := "Exception",
    isTimeoutError := false }

/-- Page content failing all three sufficiency tests. -/
def insufficientContentEx : ContentData :=
  { contentFound := false, contentElements := 0, textLength := 50,
    hasImages := false, hasLinks := false }

/-- A pre-submission snapshot whose success indicator is already set. -/
def preSetSuccessState : PageState :=
  { url := "/form", title := "Form", hasErrorMessages := false,
    hasSuccessMessages := true, hasLoadingIndicators := false,
    formCount := 1, readyState := "complete" }

/-- The same page after a redirect to "/thanks". -/
def thanksState : PageState :=
  { url := "/thanks", title := "Thanks", hasErrorMessages := false,
    hasSuccessMessages := false, hasLoadingIndicators := false,
    formCount := 0, readyState := "complete" }

/-- A fingerprint stream that always computes the same hash. -/
def constFetchEx : Nat → Option String := fun _ => some "7"

/-- A fingerprint stream whose computation succeeds once and fails ever
after. -/
def failAfterFirstFetchEx : Nat → Option String :=
  fun n => if n = 0 then some "7" else none

/-- No loading activity at any tick. -/
def noLoadEx : Nat → Bool := fun _ => false

/-! ## Theorems -/

/-- C10: `classify_error` returns the same `FailureClassification`
regardless of the `action_name` and `context` arguments — two calls
differing only in those arguments yield results equal in every field; the
result depends only on the error's text and type. -/
theorem classify_error_context_independent (e : PyError) (a1 a2 : String)
    (c1 c2 : Option (List (String × String))) :
    classifyError e a1 c1 = classifyError e a2 c2 := rfl

/-- C8: evaluation at the failing input.  For a click on a plain div whose
descendant-text extraction (`get_all_children_text`, an external
DOM-snapshot call) raises, the form-reliability watchdog's
`on_ClickElementEvent` propagates the exception instead of returning
normally: the unguarded `_is_likely_submit_button` call sits outside every
`try/except` in the handler, contradicting the requirement that no
watchdog event handler lets an exception escape. -/
theorem form_click_handler_propagates :
    onClickElementEvent (some plainDivEx) (.error "CDP call failed") =
      .error "CDP call failed" := rfl

/-- C2 counterexample: the failure message "could not find node" is
classified as stale by the code (its indicator list has a sixth entry
"could not find node"), yet it contains none of the five indicator
substrings the claim enumerates — so "stale exactly when the message
contains one of the five" is false. -/
theorem staleness_extra_indicator_cex :
    checkElementStaleness staleButtonEx (.failure "could not find node") =
      true ∧
    (specStaleIndicators.any fun ind =>
      strContainsSub (lowerStr "could not find node") ind) = false := by
  decide

/-- C3 counterexample: with the success indicator already set in the
pre-submission baseline, an unchanged page (same URL, flag still set) is
classified as success on the very first poll — the code tests the flag's
current value, not whether it became *newly* true, so the claim's
decision table (which yields no success transition here) is false. -/
theorem form_success_flag_not_newly_cex :
    verifyFormSubmission preSetSuccessState preSetSuccessState
      (fun _ => preSetSuccessState) = .successFlag ∧
    preSetSuccessState.hasSuccessMessages = true ∧
    preSetSuccessState.url = preSetSuccessState.url := by
  decide

/-- The classification of the canonical network error, field by field. -/
theorem classifyError_netReset_fields :
    (classifyError netResetError "" none).category =
      ErrorCategory.retryableNetwork ∧
    (classifyError netResetError "" none).should_retry = true ∧
    (classifyError netResetError "" none).retry_delay = 2 ∧
    (classifyError netResetError "" none).max_retries = 3 := by
  refine ⟨?_, ?_, ?_, ?_⟩ <;> decide

/-- C5 counterexample: at the third recorded failure the navigation
watchdog refuses to retry, while the classifier's retryable-network
strategy at the corresponding zero-based attempt 2 (the only attempt
correspondence under which the delays agree) still retries with delay
2.0 · 2² = 8 s — the two policies are not equal, and the watchdog permits
one fewer retry than the classifier's maximum of 3. -/
theorem nav_retry_off_by_one_cex :
    calculateRetryStrategy "net::err_connection_reset" 3 0 = (false, 0) ∧
    getRetryStrategy (classifyError netResetError "" none) 2 0 =
      (true, 8) := by
  obtain ⟨hcat, hsr, hrd, hmr⟩ := classifyError_netReset_fields
  constructor
  · have hp : (permanentNavErrors.any fun p =>
        strContainsSub (lowerStr "net::err_connection_reset") p) = false := by
      decide
    simp [calculateRetryStrategy, hp]
  · simp only [getRetryStrategy, hcat, hsr, hrd, hmr]
    norm_num

/-- C6 counterexample: a fingerprint stream that computes "7" once and
then fails forever stabilizes only at tick 6 (3.0 s), while the genuinely
unchanged stream stabilizes at tick 5 (2.5 s): the failure's constant "0"
differs from the previously observed hash, is treated as a fingerprint
*change*, and resets the stability window — so "a computation failure
behaves as an unchanged fingerprint, never itself indicating instability"
is false. -/
theorem stabilization_failure_resets_cex :
    waitForContentStabilization failAfterFirstFetchEx noLoadEx =
      .stabilized 6 ∧
    waitForContentStabilization constFetchEx noLoadEx = .stabilized 5 := by
  decide

/-- C7 counterexample: on insufficient content the reload issued by
`_consider_page_reload` is a plain `Page.reload` carrying the protocol
default `ignoreCache = false`, not the cache-ignoring reload the claim
describes. -/
theorem reload_not_cache_ignoring_cex :
    (verifyContentLoaded [] "https://example.com" insufficientContentEx).2 =
      some { ignoreCache := false } ∧
    contentSufficient insufficientContentEx = false ∧
    (some { ignoreCache := false } : Option ReloadRequest) ≠
      some { ignoreCache := true } := by
  decide

/-- Looking a key up in a list from which it was filtered out finds
nothing. -/
theorem lookupKV_filter_ne {α : Type} (l : List (String × α)) (k : String) :
    lookupKV (l.filter fun p => p.1 ≠ k) k = none := by
  have h : (l.filter fun p => p.1 ≠ k).find? (fun p => p.1 = k) = none := by
    rw [List.find?_eq_none]
    intro x hx
    have := (List.mem_filter.mp hx).2
    simpa using this
  simp [lookupKV, h]

/-- `delKV` removes the key. -/
theorem lookupKV_delKV {α : Type} (l : List (String × α)) (k : String) :
    lookupKV (delKV l k) k = none :=
  lookupKV_filter_ne l k

/-- `setKV` stores the value under the key. -/
theorem lookupKV_setKV_self {α : Type} (l : List (String × α)) (k : String)
    (v : α) : lookupKV (setKV l k v) k = some v := by
  have h : (l.filter fun p => p.1 ≠ k).find? (fun p => p.1 = k) = none := by
    rw [List.find?_eq_none]
    intro x hx
    have := (List.mem_filter.mp hx).2
    simpa using this
  simp [setKV, lookupKV, List.find?_append, h]

/-- C2 (amended): for a reference with a non-empty target id, a
node-description failure is stale exactly when its lowered message
contains one of the code's six indicator substrings — the spec's five plus
"could not find node"; any other failure is not stale; a session-creation
failure is not stale; and a successful query is stale exactly when both
the recorded tag name and the lowered returned node name are non-empty
and differ after lower-casing. -/
theorem staleness_classification_spec (node : DOMNode)
    (msg nodeName : String) (ht : node.target_id ≠ "") :
    (checkElementStaleness node (.failure msg) = true ↔
      ∃ ind ∈ staleIndicators, strContainsSub (lowerStr msg) ind = true) ∧
    (∀ m, (∀ ind ∈ staleIndicators, strContainsSub (lowerStr m) ind = false) →
      checkElementStaleness node (.failure m) = false) ∧
    (checkElementStaleness node (.success nodeName) = true ↔
      (node.node_name ≠ "" ∧ lowerStr nodeName ≠ "" ∧
        lowerStr node.node_name ≠ lowerStr nodeName)) ∧
    checkElementStaleness node .sessionError = false ∧
    (∀ ind, ind ∈ staleIndicators ↔
      (ind ∈ specStaleIndicators ∨ ind = "could not find node")) := by
  refine ⟨?_, ?_, ?_, ?_, ?_⟩
  · simp [checkElementStaleness, ht, List.any_eq_true]
  · intro m hm
    simp only [checkElementStaleness, if_neg ht]
    rw [List.any_eq_false]
    intro ind hi
    simp [hm ind hi]
  · by_cases h1 : node.node_name ≠ "" ∧ lowerStr nodeName ≠ "" ∧
        lowerStr node.node_name ≠ lowerStr nodeName
    · simp [checkElementStaleness, ht, h1]
    · simp only [checkElementStaleness, if_neg ht, if_neg h1]
      simp [h1]
  · simp [checkElementStaleness, ht]
  · intro ind
    simp only [staleIndicators, specStaleIndicators, List.mem_cons,
      List.not_mem_nil, or_false]
    tauto

/-- C2 witness: the amended classification applied to a concrete stale
reference and the failure message "node not found". -/
theorem staleness_classification_spec_witness :
    checkElementStaleness staleButtonEx (.failure "node not found") = true :=
  ((staleness_classification_spec staleButtonEx "node not found" "div"
    (by decide)).1).mpr ⟨"node not found", by decide, by decide⟩

/-- Closed form of iterated stale-element recovery with always-failing
resolution: the counter saturates at 2 and so does the number of recovery
attempts. -/
theorem iterStaleFailures_closed {α : Type} (actionType : String)
    (staleNode : DOMNode) (e : ActionEvent α) :
    ∀ k, iterStaleFailures actionType staleNode e k =
      if k = 0 then ([], 0)
      else ([(retryKey actionType staleNode, min k 2)], min k 2) := by
  intro k
  induction k with
  | zero => simp [iterStaleFailures]
  | succ k ih =>
    rw [iterStaleFailures, ih]
    by_cases hk0 : k = 0
    · subst hk0
      simp [handleStaleElement, getRetryCount, lookupKV, incrementRetryCount,
        setKV]
    · by_cases hk1 : k = 1
      · subst hk1
        simp [handleStaleElement, getRetryCount, lookupKV, incrementRetryCount,
          setKV]
      · have hk2 : 2 ≤ k := by omega
        have hm : min k 2 = 2 := by omega
        have hm1 : min (k + 1) 2 = 2 := by omega
        simp [hk0, hm, hm1, handleStaleElement, getRetryCount, lookupKV]

/-- C9: stale-element retry bookkeeping.  At a retry count of 2 the
handler emits the structured error event carrying the action kind, the
element index and the attempt count, attempts no rebuild or lookup, and
leaves counter and event untouched; below the limit a successful
resolution replaces exactly the event's element reference (all other
event payload preserved) and resets the counter to absent; a failed
resolution increments the counter; and over any run of consecutive
failures at most 2 recovery attempts are ever performed. -/
theorem stale_retry_bookkeeping {α : Type} (counts : List (String × Nat))
    (actionType : String) (staleNode : DOMNode) (e : ActionEvent α)
    (res : Option DOMNode) :
    (2 ≤ getRetryCount counts (retryKey actionType staleNode) →
      handleStaleElement counts actionType staleNode e res =
        { counts := counts
          emitted := some
            { error_type := "ElementStalenessRetryExceeded"
              message := "Element staleness retry limit exceeded for " ++
                actionType ++ " on element " ++
                optIdxStr staleNode.element_index
              action_type := actionType
              element_index := staleNode.element_index
              retry_count := getRetryCount counts (retryKey actionType staleNode) }
          recoveryAttempted := false
          event := e }) ∧
    (getRetryCount counts (retryKey actionType staleNode) < 2 →
      ∀ f, res = some f →
        lookupKV (handleStaleElement counts actionType staleNode e res).counts
          (retryKey actionType staleNode) = none ∧
        (handleStaleElement counts actionType staleNode e res).event.node = f ∧
        (handleStaleElement counts actionType staleNode e res).event.rest =
          e.rest ∧
        (handleStaleElement counts actionType staleNode e res).emitted = none ∧
        (handleStaleElement counts actionType staleNode e res).recoveryAttempted
          = true) ∧
    (getRetryCount counts (retryKey actionType staleNode) < 2 → res = none →
      (handleStaleElement counts actionType staleNode e res).counts =
        incrementRetryCount counts (retryKey actionType staleNode) ∧
      getRetryCount
        (handleStaleElement counts actionType staleNode e res).counts
        (retryKey actionType staleNode) =
        getRetryCount counts (retryKey actionType staleNode) + 1 ∧
      (handleStaleElement counts actionType staleNode e res).event = e ∧
      (handleStaleElement counts actionType staleNode e res).emitted = none ∧
      (handleStaleElement counts actionType staleNode e res).recoveryAttempted
        = true) ∧
    ∀ k, (iterStaleFailures actionType staleNode e k).2 = min k 2 := by
  refine ⟨?_, ?_, ?_, ?_⟩
  · intro h2
    simp [handleStaleElement, h2]
  · intro hlt f hf
    have hn : ¬ 2 ≤ getRetryCount counts (retryKey actionType staleNode) := by
      omega
    subst hf
    simp only [getRetryCount] at hn
    simp [handleStaleElement, getRetryCount, hn, resetRetryCount,
      incrementRetryCount, lookupKV_delKV, updateEventWithFreshElement]
  · intro hlt hf
    have hn : ¬ 2 ≤ getRetryCount counts (retryKey actionType staleNode) := by
      omega
    subst hf
    simp only [getRetryCount] at hn
    refine ⟨?_, ?_, ?_, ?_, ?_⟩ <;>
      simp [handleStaleElement, getRetryCount, hn, incrementRetryCount,
        lookupKV_setKV_self]
  · intro k
    rw [iterStaleFailures_closed]
    by_cases hk : k = 0 <;> simp [hk]

/-- C9 witness: a concrete run — at retry count 2 the error event carries
the action kind, element index and attempt count. -/
theorem stale_retry_bookkeeping_witness :
    handleStaleElement [(retryKey "click" staleButtonEx, 2)] "click"
      staleButtonEx ({ node := staleButtonEx, rest := (0 : Nat) }) none =
      { counts := [(retryKey "click" staleButtonEx, 2)]
        emitted := some
          { error_type := "ElementStalenessRetryExceeded"
            message := "Element staleness retry limit exceeded for " ++
              "click" ++ " on element " ++ optIdxStr staleButtonEx.element_index
            action_type := "click"
            element_index := staleButtonEx.element_index
            retry_count := 2 }
        recoveryAttempted := false
        event := { node := staleButtonEx, rest := (0 : Nat) } } := by
  have h := (stale_retry_bookkeeping
    [(retryKey "click" staleButtonEx, 2)] "click" staleButtonEx
    { node := staleButtonEx, rest := (0 : Nat) } none).1
  have hc : getRetryCount [(retryKey "click" staleButtonEx, 2)]
      (retryKey "click" staleButtonEx) = 2 := by
    simp [getRetryCount, lookupKV]
  rw [h (by omega)]
  simp [hc]

/-- Closed form of repeated content verification against a page that never
becomes sufficient. -/
theorem iterInsufficientContent_closed (url : String) (c : ContentData)
    (hc : contentSufficient c = false) :
    ∀ k, iterInsufficientContent url c k =
      if k = 0 then ([], 0) else ([(url, min k 2)], min k 2) := by
  intro k
  induction k with
  | zero => simp [iterInsufficientContent]
  | succ k ih =>
    rw [iterInsufficientContent, ih]
    by_cases hk0 : k = 0
    · subst hk0
      simp [verifyContentLoaded, hc, considerPageReload, lookupKV, setKV]
    · by_cases hk1 : k = 1
      · subst hk1
        simp [verifyContentLoaded, hc, considerPageReload, lookupKV, setKV]
      · have hm : min k 2 = 2 := by omega
        have hm1 : min (k + 1) 2 = 2 := by omega
        simp [hk0, hm, hm1, verifyContentLoaded, hc, considerPageReload,
          lookupKV]

/-- C7 (amended): when the content-sufficiency check fails (no structural
content elements, at most 100 characters of body text, no hyperlinks) the
navigation watchdog issues at most 2 reloads per URL — each a plain
`Page.reload` that does not bypass the cache — then gives up and accepts
the page as-is; sufficient content never triggers a reload. -/
theorem reload_bound_spec (counts : List (String × Nat)) (url : String)
    (c : ContentData) :
    (contentSufficient c = true →
      verifyContentLoaded counts url c = (counts, none)) ∧
    (contentSufficient c =
      (c.contentFound || decide (100 < c.textLength) || c.hasLinks)) ∧
    (∀ st u, (considerPageReload st u).2 = none ∨
      (considerPageReload st u).2 = some { ignoreCache := false }) ∧
    (contentSufficient c = false →
      ∀ k, (iterInsufficientContent url c k).2 = min k 2) := by
  refine ⟨?_, rfl, ?_, ?_⟩
  · intro hs
    simp [verifyContentLoaded, hs]
  · intro st u
    by_cases hr : (lookupKV st u).getD 0 < 2
    · right
      simp [considerPageReload, hr]
    · left
      simp [considerPageReload, hr]
  · intro hc k
    rw [iterInsufficientContent_closed url c hc]
    by_cases hk : k = 0 <;> simp [hk]

/-- C7 witness: five insufficient verifications of the same URL issue
exactly 2 reloads. -/
theorem reload_bound_spec_witness :
    (iterInsufficientContent "https://example.com" insufficientContentEx 5).2 =
      min 5 2 :=
  (reload_bound_spec [] "https://example.com" insufficientContentEx).2.2.2
    (by decide) 5

/-- C4: time-windowed expiry of the network-failure ledger.  Each recorded
failure is preceded by the navigation-start sweep that expires entries
older than 300 s; two failures inside the window leave a count of 2, and a
third failure more than 300 s after the second finds the entry expired and
records a count of 1, not 3. -/
theorem network_ledger_expiry (u msg : String) (t0 t1 t2 : ℚ)
    (hmsg : isNetworkError msg = true) (h01 : t1 - t0 ≤ 300)
    (h12 : 300 < t2 - t1) :
    failureCountOf (navFailureCycle emptyNetworkState u msg t0) u = some 1 ∧
    failureCountOf
      (navFailureCycle (navFailureCycle emptyNetworkState u msg t0) u msg t1)
      u = some 2 ∧
    failureCountOf
      (navFailureCycle
        (navFailureCycle (navFailureCycle emptyNetworkState u msg t0) u msg t1)
        u msg t2) u = some 1 := by
  have hd1 : ¬ (300 : ℚ) < t1 - t0 := not_lt.mpr h01
  have e1 : navFailureCycle emptyNetworkState u msg t0 =
      { failures := [(u, 1)], lastFailure := [(u, t0)] } := by
    simp [navFailureCycle, onNavigationStartedNet, emptyNetworkState,
      onNavigationCompleteNet, hmsg, recordNetworkFailure, lookupKV, setKV]
  have e2 : navFailureCycle
      ({ failures := [(u, 1)], lastFailure := [(u, t0)] } : NetworkState)
      u msg t1 =
      { failures := [(u, 2)], lastFailure := [(u, t1)] } := by
    simp [navFailureCycle, onNavigationStartedNet, onNavigationCompleteNet,
      hmsg, recordNetworkFailure, lookupKV, setKV, hd1]
  have e3 : navFailureCycle
      ({ failures := [(u, 2)], lastFailure := [(u, t1)] } : NetworkState)
      u msg t2 =
      { failures := [(u, 1)], lastFailure := [(u, t2)] } := by
    simp [navFailureCycle, onNavigationStartedNet, onNavigationCompleteNet,
      hmsg, recordNetworkFailure, lookupKV, setKV, h12]
  rw [e1, e2, e3]
  refine ⟨?_, ?_, ?_⟩ <;> simp [failureCountOf, lookupKV]

/-- C4 witness: failures at t = 0 s and t = 0 s leave a count of 2; a
failure at t = 301 s resets the count to 1. -/
theorem network_ledger_expiry_witness :
    failureCountOf
      (navFailureCycle
        (navFailureCycle
          (navFailureCycle emptyNetworkState "https://example.com"
            "connection_reset" 0)
          "https://example.com" "connection_reset" 0)
        "https://example.com" "connection_reset" 301) "https://example.com" =
      some 1 :=
  (network_ledger_expiry "https://example.com" "connection_reset" 0 0 301
    (by decide) (by norm_num) (by norm_num)).2.2

/-- Any classification in the retryable-network category carries the fixed
network policy: retryable, base delay 2 s, max 3 retries. -/
theorem classifyError_network_has_policy (e : PyError) (a : String)
    (ctx : Option (List (String × String)))
    (h : (classifyError e a ctx).category = ErrorCategory.retryableNetwork) :
    (classifyError e a ctx).should_retry = true ∧
    (classifyError e a ctx).retry_delay = 2 ∧
    (classifyError e a ctx).max_retries = 3 := by
  revert h
  unfold classifyError
  dsimp only
  cases h1 : firstPatternMatch networkPatterns (lowerStr e.text) with
  | some d => intro _; simp [mkClassificationResult]
  | none =>
  cases h2 : firstPatternMatch timingPatterns (lowerStr e.text) with
  | some d => intro h; simp [mkClassificationResult] at h
  | none =>
  cases h3 : firstPatternMatch resourcePatterns (lowerStr e.text) with
  | some d => intro h; simp [mkClassificationResult] at h
  | none =>
  cases h4 : firstPatternMatch staleElementPatterns (lowerStr e.text) with
  | some d => intro h; simp [mkClassificationResult] at h
  | none =>
  cases h5 : firstPatternMatch invalidInputPatterns (lowerStr e.text) with
  | some d => intro h; simp [mkClassificationResult] at h
  | none =>
  cases h6 : firstPatternMatch notFoundPatterns (lowerStr e.text) with
  | some d => intro h; simp [mkClassificationResult] at h
  | none =>
  cases h7 : firstPatternMatch accessDeniedPatterns (lowerStr e.text) with
  | some d => intro h; simp [mkClassificationResult] at h
  | none =>
  cases h8 : firstPatternMatch configurationPatterns (lowerStr e.text) with
  | some d => intro h; simp [mkClassificationResult] at h
  | none =>
  cases h9 : e.isTimeoutError with
  | true => intro h; simp [mkClassificationResult] at h
  | false => intro h; simp [mkClassificationResult] at h

/-- C5 (amended): for a non-permanent network error and one-based failure
count n ≥ 1, the navigation watchdog retries exactly while n < 3 (one
fewer attempt than the classifier's network policy, which retries while
the zero-based attempt is < 3); while both retry, the watchdog's delay is
the classifier's network delay at attempt n − 1 (2.0 · 2^(n−1) capped at
30 s) plus the jitter, which the watchdog adds after the cap; at n = 3 the
watchdog refuses while the classifier would still retry. -/
theorem nav_retry_follows_network_policy (e : PyError) (a : String)
    (ctx : Option (List (String × String))) (msg : String) (n : Nat) (j : ℚ)
    (hcat : (classifyError e a ctx).category = ErrorCategory.retryableNetwork)
    (hperm : (permanentNavErrors.any fun p =>
      strContainsSub (lowerStr msg) p) = false)
    (hn : 1 ≤ n) :
    ((calculateRetryStrategy msg n j).1 = true ↔ n < 3) ∧
    ((getRetryStrategy (classifyError e a ctx) (n - 1) 0).1 = true ↔
      n - 1 < 3) ∧
    (n < 3 → (calculateRetryStrategy msg n j).2 =
      (getRetryStrategy (classifyError e a ctx) (n - 1) 0).2 + j) ∧
    (n < 3 → (calculateRetryStrategy msg n j).2 =
      min (2 * (2 : ℚ) ^ ((n : ℤ) - 1)) 30 + j) ∧
    (calculateRetryStrategy msg 3 j).1 = false ∧
    (getRetryStrategy (classifyError e a ctx) 2 0).1 = true := by
  obtain ⟨hsr, hrd, hmr⟩ := classifyError_network_has_policy e a ctx hcat
  have hz : (2 : ℚ) ^ ((n : ℤ) - 1) = (2 : ℚ) ^ (n - 1 : ℕ) := by
    rw [show ((n : ℤ) - 1) = ((n - 1 : ℕ) : ℤ) by omega, zpow_natCast]
  refine ⟨?_, ?_, ?_, ?_, ?_, ?_⟩
  · by_cases h3 : 3 ≤ n <;> simp [calculateRetryStrategy, hperm, h3] <;> omega
  · by_cases h3 : 3 ≤ n - 1 <;>
      simp [getRetryStrategy, hsr, hmr, h3] <;> omega
  · intro h3
    have h3' : ¬ 3 ≤ n := by omega
    have h3n : ¬ 3 ≤ n - 1 := by omega
    simp [calculateRetryStrategy, getRetryStrategy, hperm, h3', h3n, hsr,
      hmr, hrd, hcat, hz]
  · intro h3
    have h3' : ¬ 3 ≤ n := by omega
    simp [calculateRetryStrategy, hperm, h3']
  · simp [calculateRetryStrategy, hperm]
  · simp [getRetryStrategy, hsr, hmr]

/-- C5 witness: the amended policy comparison at the first failure of a
connection-reset error — both sides retry with a 2 s delay. -/
theorem nav_retry_follows_network_policy_witness :
    (calculateRetryStrategy "connection_reset" 1 0).2 =
      (getRetryStrategy (classifyError netResetError "" none) 0 0).2 + 0 :=
  (nav_retry_follows_network_policy netResetError "" none "connection_reset"
    1 0 (by decide) (by decide) (by decide)).2.2.1 (by decide)

/-- C3 (amended): the submission classifier polls snapshots in 0.5 s units
for up to 10 s (20 units).  At each in-time tick it decides in priority
order: URL changed from baseline ⇒ success; success flag currently true
(whether or not it was true at baseline) ⇒ success; error flag ⇒ failure
(with at most three visible non-empty error texts extracted for
reporting); otherwise it advances by 2 units while a loading indicator is
observed and by 1 unit otherwise.  Once 20 units have elapsed, the outcome
is the logged indeterminate exactly when a final fresh snapshot has the
baseline URL and no success flag, and is silent otherwise. -/
theorem form_submission_poll_spec (pre finalState : PageState)
    (obs : Nat → PageState) (elems : List ErrorElem)
    (fuel elapsed n : Nat) :
    (elapsed < 20 → (obs n).url ≠ pre.url →
      verifyFormAux pre finalState obs (fuel + 1) elapsed n =
        .successUrlChanged) ∧
    (elapsed < 20 → (obs n).url = pre.url →
      (obs n).hasSuccessMessages = true →
      verifyFormAux pre finalState obs (fuel + 1) elapsed n = .successFlag) ∧
    (elapsed < 20 → (obs n).url = pre.url →
      (obs n).hasSuccessMessages = false → (obs n).hasErrorMessages = true →
      verifyFormAux pre finalState obs (fuel + 1) elapsed n =
        .failureDetected) ∧
    (elapsed < 20 → (obs n).url = pre.url →
      (obs n).hasSuccessMessages = false → (obs n).hasErrorMessages = false →
      verifyFormAux pre finalState obs (fuel + 1) elapsed n =
        verifyFormAux pre finalState obs fuel
          (elapsed + (if (obs n).hasLoadingIndicators then 2 else 1))
          (n + 1)) ∧
    (20 ≤ elapsed →
      verifyFormAux pre finalState obs fuel elapsed n =
        (if finalState.url = pre.url ∧ finalState.hasSuccessMessages = false
         then FormOutcome.indeterminate else FormOutcome.silent)) ∧
    (extractErrorMessages elems).length ≤ 3 ∧
    (∀ m ∈ extractErrorMessages elems,
      ∃ el ∈ elems, el.visible = true ∧ el.text = m ∧ m ≠ "") := by
  refine ⟨?_, ?_, ?_, ?_, ?_, ?_, ?_⟩
  · intro he hu
    have he' : ¬ 20 ≤ elapsed := by omega
    simp [verifyFormAux, he', hu]
  · intro he hu hs
    have he' : ¬ 20 ≤ elapsed := by omega
    simp [verifyFormAux, he', hu, hs]
  · intro he hu hs her
    have he' : ¬ 20 ≤ elapsed := by omega
    simp [verifyFormAux, he', hu, hs, her]
  · intro he hu hs her
    have he' : ¬ 20 ≤ elapsed := by omega
    by_cases hl : (obs n).hasLoadingIndicators <;>
      simp [verifyFormAux, he', hu, hs, her, hl]
  · intro he
    match fuel with
    | 0 => simp [verifyFormAux, formTimeoutResult]
    | fuel + 1 => simp [verifyFormAux, he, formTimeoutResult]
  · simp only [extractErrorMessages, List.length_map]
    exact List.length_take_le 3 _
  · intro m hm
    simp only [extractErrorMessages, List.mem_map] at hm
    obtain ⟨el, hel, hme⟩ := hm
    have hel2 := List.take_subset 3 _ hel
    have hel3 := List.mem_filter.mp hel2
    refine ⟨el, hel3.1, ?_, hme, ?_⟩
    · have := hel3.2
      simp at this
      exact this.1
    · have := hel3.2
      simp at this
      rw [← hme]
      exact this.2

/-- C3 witness: a navigation from "/form" to "/thanks" classifies as
success via URL change on the first tick. -/
theorem form_submission_poll_spec_witness :
    verifyFormAux preSetSuccessState preSetSuccessState
      (fun _ => thanksState) 20 0 0 = .successUrlChanged :=
  (form_submission_poll_spec preSetSuccessState preSetSuccessState
    (fun _ => thanksState) [] 19 0 0).1 (by decide) (by decide)

/-- Once a best match is installed, the scan never returns to none. -/
theorem findBestAux_some_ne_none (stale : DOMNode) :
    ∀ (l : List DOMNode) (sb : Nat) (y : DOMNode),
      findBestAux stale l sb (some y) ≠ none := by
  intro l
  induction l with
  | nil => intro sb y h; simp [findBestAux] at h
  | cons c rest ih =>
    intro sb y h
    simp only [findBestAux] at h
    by_cases hcond : sb < matchScore stale c ∧ 15 ≤ matchScore stale c
    · rw [if_pos hcond] at h
      exact ih _ _ h
    · rw [if_neg hcond] at h
      exact ih _ _ h

/-- If no candidate reaches the threshold, the scan returns none. -/
theorem findBestAux_all_small (stale : DOMNode) :
    ∀ (l : List DOMNode) (sb : Nat),
      (∀ c ∈ l, matchScore stale c < 15) →
      findBestAux stale l sb none = none := by
  intro l
  induction l with
  | nil => intro sb _; simp [findBestAux]
  | cons c rest ih =>
    intro sb hall
    simp only [findBestAux]
    have hc : matchScore stale c < 15 := hall c (by simp)
    rw [if_neg (by omega)]
    exact ih sb fun d hd => hall d (by simp [hd])

/-- If the scan never installs a match, every candidate either failed the
threshold or failed to beat the running best score. -/
theorem findBestAux_none_bound (stale : DOMNode) :
    ∀ (l : List DOMNode) (sb : Nat),
      findBestAux stale l sb none = none →
      ∀ c ∈ l, matchScore stale c ≤ sb ∨ matchScore stale c < 15 := by
  intro l
  induction l with
  | nil => intro sb _ c hc; simp at hc
  | cons c rest ih =>
    intro sb h d hd
    simp only [findBestAux] at h
    by_cases hcond : sb < matchScore stale c ∧ 15 ≤ matchScore stale c
    · rw [if_pos hcond] at h
      exact absurd h (findBestAux_some_ne_none stale rest _ c)
    · rw [if_neg hcond] at h
      rcases List.mem_cons.mp hd with hdc | hdr
      · subst hdc; omega
      · exact ih sb h d hdr

/-- Result characterization of the scan started from an installed best
match `y` whose score is the running best score. -/
theorem findBestAux_from_some (stale : DOMNode) :
    ∀ (l : List DOMNode) (y x : DOMNode), 15 ≤ matchScore stale y →
      findBestAux stale l (matchScore stale y) (some y) = some x →
      (x = y ∧ ∀ c ∈ l, matchScore stale c ≤ matchScore stale y) ∨
      (15 ≤ matchScore stale x ∧ matchScore stale y < matchScore stale x ∧
        (∀ c ∈ l, matchScore stale c ≤ matchScore stale x) ∧
        ∃ l1 l2, l = l1 ++ x :: l2 ∧
          ∀ c ∈ l1, matchScore stale c < matchScore stale x) := by
  intro l
  induction l with
  | nil =>
    intro y x _ h
    simp only [findBestAux, Option.some.injEq] at h
    exact Or.inl ⟨h.symm, by simp⟩
  | cons c rest ih =>
    intro y x hy h
    simp only [findBestAux] at h
    by_cases hcond : matchScore stale y < matchScore stale c ∧
        15 ≤ matchScore stale c
    · rw [if_pos hcond] at h
      rcases ih c x hcond.2 h with ⟨hxc, hrest⟩ | hstep
      · subst hxc
        refine Or.inr ⟨hcond.2, hcond.1, ?_, [], rest, by simp, by simp⟩
        intro d hd
        rcases List.mem_cons.mp hd with hdc | hdr
        · subst hdc; exact le_refl _
        · exact hrest d hdr
      · obtain ⟨h15, hlt, hbound, l1, l2, hdec, hpre⟩ := hstep
        refine Or.inr ⟨h15, lt_trans hcond.1 hlt, ?_, c :: l1, l2, ?_, ?_⟩
        · intro d hd
          rcases List.mem_cons.mp hd with hdc | hdr
          · subst hdc; exact le_of_lt hlt
          · exact hbound d hdr
        · simp [hdec]
        · intro d hd
          rcases List.mem_cons.mp hd with hdc | hdr
          · subst hdc; exact hlt
          · exact hpre d hdr
    · rw [if_neg hcond] at h
      have hle : matchScore stale c ≤ matchScore stale y := by omega
      rcases ih y x hy h with ⟨hxy, hrest⟩ | hstep
      · refine Or.inl ⟨hxy, ?_⟩
        intro d hd
        rcases List.mem_cons.mp hd with hdc | hdr
        · subst hdc; exact hle
        · exact hrest d hdr
      · obtain ⟨h15, hlt, hbound, l1, l2, hdec, hpre⟩ := hstep
        refine Or.inr ⟨h15, hlt, ?_, c :: l1, l2, ?_, ?_⟩
        · intro d hd
          rcases List.mem_cons.mp hd with hdc | hdr
          · subst hdc; exact le_of_lt (lt_of_le_of_lt hle hlt)
          · exact hbound d hdr
        · simp [hdec]
        · intro d hd
          rcases List.mem_cons.mp hd with hdc | hdr
          · subst hdc; exact lt_of_le_of_lt hle hlt
          · exact hpre d hdr

/-- Result characterization of the scan started with no best match. -/
theorem findBestAux_from_none (stale : DOMNode) :
    ∀ (l : List DOMNode) (sb : Nat) (x : DOMNode),
      findBestAux stale l sb none = some x →
      15 ≤ matchScore stale x ∧ sb < matchScore stale x ∧
      (∀ c ∈ l, matchScore stale c ≤ matchScore stale x) ∧
      ∃ l1 l2, l = l1 ++ x :: l2 ∧
        ∀ c ∈ l1, matchScore stale c < matchScore stale x := by
  intro l
  induction l with
  | nil => intro sb x h; simp [findBestAux] at h
  | cons c rest ih =>
    intro sb x h
    simp only [findBestAux] at h
    by_cases hcond : sb < matchScore stale c ∧ 15 ≤ matchScore stale c
    · rw [if_pos hcond] at h
      rcases findBestAux_from_some stale rest c x hcond.2 h with
        ⟨hxc, hrest⟩ | hstep
      · subst hxc
        refine ⟨hcond.2, hcond.1, ?_, [], rest, by simp, by simp⟩
        intro d hd
        rcases List.mem_cons.mp hd with hdc | hdr
        · subst hdc; exact le_refl _
        · exact hrest d hdr
      · obtain ⟨h15, hlt, hbound, l1, l2, hdec, hpre⟩ := hstep
        refine ⟨h15, lt_trans hcond.1 hlt, ?_, c :: l1, l2, ?_, ?_⟩
        · intro d hd
          rcases List.mem_cons.mp hd with hdc | hdr
          · subst hdc; exact le_of_lt hlt
          · exact hbound d hdr
        · simp [hdec]
        · intro d hd
          rcases List.mem_cons.mp hd with hdc | hdr
          · subst hdc; exact hlt
          · exact hpre d hdr
    · rw [if_neg hcond] at h
      obtain ⟨h15, hsb, hbound, l1, l2, hdec, hpre⟩ := ih sb x h
      have hcx : matchScore stale c < matchScore stale x := by omega
      refine ⟨h15, hsb, ?_, c :: l1, l2, ?_, ?_⟩
      · intro d hd
        rcases List.mem_cons.mp hd with hdc | hdr
        · subst hdc; exact le_of_lt hcx
        · exact hbound d hdr
      · simp [hdec]
      · intro d hd
        rcases List.mem_cons.mp hd with hdc | hdr
        · subst hdc; exact hcx
        · exact hpre d hdr

/-- C1: best-match selection over the fresh selector map.  The resolver
returns none exactly when every candidate scores below 15; a returned
candidate has score at least 15, has the maximum score over all
candidates, and is the first candidate attaining that score in index
iteration order; in particular a candidate sharing only the tag (score 10)
is never selected.  The per-candidate score is `matchScore`: +10 for a
case-insensitive tag-name match, +2 per attribute key present on both
sides with equal values, +5 when both positions are recorded and differ by
less than 50 px on each axis. -/
theorem stale_best_match_scoring (stale : DOMNode)
    (freshSelectorMap : List (Nat × DOMNode)) :
    (findByElementCharacteristics stale freshSelectorMap = none ↔
      ∀ c ∈ freshSelectorMap.map (·.2), matchScore stale c < 15) ∧
    (∀ b, findByElementCharacteristics stale freshSelectorMap = some b →
      b ∈ freshSelectorMap.map (·.2) ∧ 15 ≤ matchScore stale b ∧
      (∀ c ∈ freshSelectorMap.map (·.2),
        matchScore stale c ≤ matchScore stale b) ∧
      ∃ l1 l2, freshSelectorMap.map (·.2) = l1 ++ b :: l2 ∧
        ∀ c ∈ l1, matchScore stale c < matchScore stale b) ∧
    (∀ b, matchScore stale b = 10 →
      findByElementCharacteristics stale freshSelectorMap ≠ some b) := by
  simp only [findByElementCharacteristics]
  refine ⟨⟨?_, ?_⟩, ?_, ?_⟩
  · intro h c hc
    have := findBestAux_none_bound stale (freshSelectorMap.map (·.2)) 0 h c hc
    omega
  · intro hall
    exact findBestAux_all_small stale (freshSelectorMap.map (·.2)) 0 hall
  · intro b hb
    obtain ⟨h15, _, hbound, l1, l2, hdec, hpre⟩ :=
      findBestAux_from_none stale (freshSelectorMap.map (·.2)) 0 b hb
    refine ⟨?_, h15, hbound, l1, l2, hdec, hpre⟩
    rw [hdec]
    simp
  · intro b hb h
    obtain ⟨h15, _, _, _⟩ :=
      findBestAux_from_none stale (freshSelectorMap.map (·.2)) 0 b h
    omega

/-- The spec's worked example score: tag (10) + id attribute (2) +
position within 50 px on both axes (5) = 17. -/
theorem matchScore_spec_example :
    matchScore staleButtonEx freshButtonEx = 17 := by
  have h1 : |(100 : ℚ) - 120| < 50 := by rw [abs_sub_lt_iff]; norm_num
  have h2 : |(200 : ℚ) - 210| < 50 := by rw [abs_sub_lt_iff]; norm_num
  unfold matchScore
  rw [if_pos (by decide), if_pos (by decide)]
  simp only [staleButtonEx, freshButtonEx]
  rw [if_pos ⟨h1, h2⟩]
  decide

/-- C1 witness: the selection property applied to a concrete stale
reference and a two-candidate map — the tag-plus-attributes candidate
(score 16) is selected over the tag-only candidate (score 10). -/
theorem stale_best_match_scoring_witness :
    richButtonEx ∈
      ([(6, tagOnlyButtonEx), (7, richButtonEx)] :
        List (Nat × DOMNode)).map (·.2) ∧
    15 ≤ matchScore staleButtonEx richButtonEx ∧
    (∀ c ∈ ([(6, tagOnlyButtonEx), (7, richButtonEx)] :
        List (Nat × DOMNode)).map (·.2),
      matchScore staleButtonEx c ≤ matchScore staleButtonEx richButtonEx) ∧
    ∃ l1 l2,
      ([(6, tagOnlyButtonEx), (7, richButtonEx)] :
        List (Nat × DOMNode)).map (·.2) = l1 ++ richButtonEx :: l2 ∧
      ∀ c ∈ l1, matchScore staleButtonEx c < matchScore staleButtonEx
        richButtonEx :=
  (stale_best_match_scoring staleButtonEx
    [(6, tagOnlyButtonEx), (7, richButtonEx)]).2.1 richButtonEx (by decide)

/-- The loop's "unchanged hash" test agrees with `changedAtB`. -/
theorem lastHash_unchanged_iff (h : Nat → String) (t : Nat) :
    lastHashOf h t = some (h t) ↔ changedAtB h t = false := by
  cases t with
  | zero => simp [lastHashOf, changedAtB]
  | succ n =>
    simp [lastHashOf, changedAtB]
    exact eq_comm

/-- A changed hash clears the stability start. -/
theorem startOf_succ_changed (h : Nat → String) (load : Nat → Bool) (t : Nat)
    (hc : changedAtB h t = true) : startOf h load (t + 1) = none := by
  cases hl : load t <;> simp [startOf, hc, hl]

/-- Step rule for the stability start on an unchanged hash. -/
theorem startOf_succ_unchanged (h : Nat → String) (load : Nat → Bool)
    (t : Nat) (hc : changedAtB h t = false) :
    startOf h load (t + 1) =
      if load t then none
      else
        match startOf h load t with
        | none => some t
        | some s => some s := by
  cases hl : load t <;> simp [startOf, hc, hl]

/-- The stabilization loop, run from any tick with the state that the
history determines, returns the first tick satisfying the break condition
within the remaining fuel, and times out otherwise. -/
theorem stabAux_run (h : Nat → String) (load : Nat → Bool) :
    ∀ (fuel t : Nat),
      stabAux h load fuel t (lastHashOf h t) (startOf h load t) =
        (match (List.range' t fuel).find? (breakCondB h load) with
         | some t2 => StabOutcome.stabilized t2
         | none => StabOutcome.timeout) := by
  intro fuel
  induction fuel with
  | zero => intro t; simp [stabAux, List.range']
  | succ fuel ih =>
    intro t
    rw [List.range'_succ]
    by_cases hc : changedAtB h t = true
    · have hlh : ¬ lastHashOf h t = some (h t) := by
        rw [lastHash_unchanged_iff]; simp [hc]
      have hbc : breakCondB h load t = false := by simp [breakCondB, hc]
      rw [List.find?_cons_of_neg _ (by simp [hbc])]
      simp only [stabAux]
      rw [if_neg hlh]
      have hnext := startOf_succ_changed h load t hc
      have hrec := ih (t + 1)
      rw [hnext] at hrec
      exact hrec
    · have hc' : changedAtB h t = false := by simpa using hc
      have hlh : lastHashOf h t = some (h t) :=
        (lastHash_unchanged_iff h t).mpr hc'
      cases hs : startOf h load t with
      | some s =>
        by_cases hw : 4 ≤ t - s
        · have hbc : breakCondB h load t = true := by
            simp [breakCondB, hc', hs, hw]
          rw [List.find?_cons_of_pos _ hbc]
          simp only [stabAux]
          rw [hlh]
          simp [hw]
        · have hbc : breakCondB h load t = false := by
            simp [breakCondB, hc', hs, hw]
          rw [List.find?_cons_of_neg _ (by simp [hbc])]
          simp only [stabAux]
          rw [hlh]
          simp only [if_pos rfl]
          rw [if_neg hw]
          have hnext := startOf_succ_unchanged h load t hc'
          rw [hs] at hnext
          have hrec := ih (t + 1)
          rw [hnext] at hrec
          exact hrec
      | none =>
        have hbc : breakCondB h load t = false := by
          simp [breakCondB, hc', hs]
        rw [List.find?_cons_of_neg _ (by simp [hbc])]
        simp only [stabAux]
        rw [hlh]
        simp only [if_pos rfl]
        have hnext := startOf_succ_unchanged h load t hc'
        rw [hs] at hnext
        have hrec := ih (t + 1)
        rw [hnext] at hrec
        exact hrec

/-- The stabilization entry point in terms of the break condition. -/
theorem waitForContentStabilization_run (fetch : Nat → Option String)
    (load : Nat → Bool) :
    waitForContentStabilization fetch load =
      (match (List.range' 0 30).find? (breakCondB (obsHash fetch) load) with
       | some t2 => StabOutcome.stabilized t2
       | none => StabOutcome.timeout) := by
  have hrun := stabAux_run (obsHash fetch) load 30 0
  exact hrun

/-- `find?` over an interval finds exactly the least satisfying point. -/
theorem find?_range'_eq_some (p : Nat → Bool) :
    ∀ (n a t : Nat), (List.range' a n).find? p = some t ↔
      (a ≤ t ∧ t < a + n ∧ p t = true ∧
        ∀ u, a ≤ u → u < t → p u = false) := by
  intro n
  induction n with
  | zero =>
    intro a t
    simp only [List.range']
    constructor
    · intro hf; simp at hf
    · rintro ⟨h1, h2, _, _⟩; omega
  | succ n ih =>
    intro a t
    rw [List.range'_succ]
    by_cases hpa : p a = true
    · rw [List.find?_cons_of_pos _ hpa]
      constructor
      · intro hf
        have hta : a = t := by simpa using hf
        subst hta
        exact ⟨le_refl a, by omega, hpa, fun u h1 h2 => by omega⟩
      · rintro ⟨h1, h2, h3, h4⟩
        by_cases hta : t = a
        · subst hta; rfl
        · have := h4 a (le_refl a) (by omega)
          rw [hpa] at this
          exact absurd this (by simp)
    · have hpa' : p a = false := by simpa using hpa
      rw [List.find?_cons_of_neg _ hpa]
      rw [ih (a + 1) t]
      constructor
      · rintro ⟨h1, h2, h3, h4⟩
        refine ⟨by omega, by omega, h3, fun u hu1 hu2 => ?_⟩
        by_cases hua : u = a
        · subst hua; exact hpa'
        · exact h4 u (by omega) hu2
      · rintro ⟨h1, h2, h3, h4⟩
        have hta : t ≠ a := by
          intro he
          rw [he] at h3
          rw [h3] at hpa'
          simp at hpa'
        refine ⟨by omega, by omega, h3, fun u hu1 hu2 => h4 u (by omega) hu2⟩

/-- `find?` over an interval misses exactly when the predicate fails
throughout. -/
theorem find?_range'_eq_none (p : Nat → Bool) (a n : Nat) :
    (List.range' a n).find? p = none ↔
      ∀ u, a ≤ u → u < a + n → p u = false := by
  rw [List.find?_eq_none]
  constructor
  · intro h u h1 h2
    have := h u (List.mem_range'_1.mpr ⟨h1, h2⟩)
    simpa using this
  · intro h x hx
    have hm := List.mem_range'_1.mp hx
    simp [h x hm.1 hm.2]

/-- A set stability start marks a disturbance-free run of ticks. -/
theorem startOf_some_props (h : Nat → String) (load : Nat → Bool) :
    ∀ (t s : Nat), startOf h load t = some s →
      s < t ∧ ∀ u, s ≤ u → u < t →
        (changedAtB h u = false ∧ load u = false) := by
  intro t
  induction t with
  | zero => intro s hs; simp [startOf] at hs
  | succ t ih =>
    intro s hs
    cases hl : load t with
    | true => simp [startOf, hl] at hs
    | false =>
      cases hc : changedAtB h t with
      | true => simp [startOf, hl, hc] at hs
      | false =>
        cases hso : startOf h load t with
        | none =>
          simp [startOf, hl, hc, hso] at hs
          constructor
          · omega
          · intro u h1 h2
            have hut : u = t := by omega
            subst hut
            exact ⟨hc, hl⟩
        | some s' =>
          simp [startOf, hl, hc, hso] at hs
          obtain ⟨hlt, hprops⟩ := ih s' hso
          constructor
          · omega
          · intro u h1 h2
            by_cases hut : u = t
            · subst hut; exact ⟨hc, hl⟩
            · exact hprops u (by omega) (by omega)

/-- A disturbance-free run of ticks sets the stability start at or before
its first tick. -/
theorem startOf_undisturbed (h : Nat → String) (load : Nat → Bool)
    (a : Nat) :
    ∀ (d : Nat), 1 ≤ d →
      (∀ u, a ≤ u → u < a + d →
        (changedAtB h u = false ∧ load u = false)) →
      ∃ s, s ≤ a ∧ startOf h load (a + d) = some s := by
  intro d
  induction d with
  | zero => intro h1; omega
  | succ d ih =>
    intro _ hq
    by_cases hd0 : d = 0
    · subst hd0
      have hu := hq a (le_refl a) (by omega)
      cases hso : startOf h load a with
      | none =>
        refine ⟨a, le_refl a, ?_⟩
        show startOf h load (a + 1) = some a
        simp [startOf, hu.1, hu.2, hso]
      | some s' =>
        have hps := startOf_some_props h load a s' hso
        refine ⟨s', by omega, ?_⟩
        show startOf h load (a + 1) = some s'
        simp [startOf, hu.1, hu.2, hso]
    · have hd1 : 1 ≤ d := by omega
      obtain ⟨s, hsle, hso⟩ := ih hd1 fun u h1 h2 => hq u h1 (by omega)
      have hu := hq (a + d) (by omega) (by omega)
      refine ⟨s, hsle, ?_⟩
      show startOf h load (a + d + 1) = some s
      simp [startOf, hu.1, hu.2, hso]

/-- `changedAtB` is false exactly on a positive tick repeating the
previous hash. -/
theorem changedAtB_eq_false_iff (h : Nat → String) (t : Nat) :
    changedAtB h t = false ↔ (1 ≤ t ∧ h t = h (t - 1)) := by
  cases t with
  | zero => simp [changedAtB]
  | succ n => simp [changedAtB]

/-- The loop's break condition holds exactly on a clean window. -/
theorem breakCondB_iff_cleanWindow (h : Nat → String) (load : Nat → Bool)
    (t : Nat) : breakCondB h load t = true ↔ CleanWindow h load t := by
  constructor
  · intro hb
    simp only [breakCondB, Bool.and_eq_true, Bool.not_eq_true'] at hb
    obtain ⟨hc, hm⟩ := hb
    cases hso : startOf h load t with
    | none => rw [hso] at hm; simp at hm
    | some s =>
      rw [hso] at hm
      have hw : 4 ≤ t - s := by simpa using hm
      obtain ⟨hst, hprops⟩ := startOf_some_props h load t s hso
      have h5 : 5 ≤ t := by
        have hq := hprops (t - 4) (by omega) (by omega)
        have := (changedAtB_eq_false_iff h (t - 4)).mp hq.1
        omega
      refine ⟨h5, ?_, ?_⟩
      · intro u h1 h2
        by_cases hut : u = t
        · rw [hut]
          exact ((changedAtB_eq_false_iff h t).mp hc).2
        · have hq := hprops u (by omega) (by omega)
          exact ((changedAtB_eq_false_iff h u).mp hq.1).2
      · intro u h1 h2
        exact (hprops u (by omega) h2).2
  · rintro ⟨h5, hh, hl⟩
    have hchanged : ∀ u, t - 4 ≤ u → u ≤ t → changedAtB h u = false := by
      intro u h1 h2
      rw [changedAtB_eq_false_iff]
      exact ⟨by omega, hh u h1 h2⟩
    obtain ⟨s, hsle, hso⟩ := startOf_undisturbed h load (t - 4) 4 (by omega)
      (fun u h1 h2 => ⟨hchanged u h1 (by omega), hl u h1 (by omega)⟩)
    have ht4 : t - 4 + 4 = t := by omega
    rw [ht4] at hso
    have hct : changedAtB h t = false := hchanged t (by omega) (le_refl t)
    simp only [breakCondB, hso, hct]
    simp
    omega

/-- C6 (amended): the detector polls at 0.5 s ticks for up to 15 s (30
ticks).  It returns "stabilized" at tick t exactly when t is the first
tick (before the timeout) at whose entry the fingerprint has been
unchanged and the loading signal clear across the 2.0 s window — the
stability start being reset on any fingerprint change or loading activity
— and returns the non-fatal "timeout" exactly when no such tick occurs
within the timeout.  A fingerprint computation failure yields the constant
"0", which behaves as unchanged only against an adjacent observation that
is also "0": following a successful computation with a different hash it
registers as a fingerprint change and resets the stability window. -/
theorem content_stabilization_spec (fetch : Nat → Option String)
    (load : Nat → Bool) :
    (∀ n, fetch n = none → obsHash fetch n = "0") ∧
    (waitForContentStabilization fetch load = .timeout ↔
      ∀ t, t < 30 → ¬ CleanWindow (obsHash fetch) load t) ∧
    (∀ t, waitForContentStabilization fetch load = .stabilized t ↔
      (t < 30 ∧ CleanWindow (obsHash fetch) load t ∧
        ∀ u, u < t → ¬ CleanWindow (obsHash fetch) load u)) := by
  refine ⟨?_, ?_, ?_⟩
  · intro n hn; simp [obsHash, hn]
  · rw [waitForContentStabilization_run]
    constructor
    · intro hto t ht hclean
      cases hf : (List.range' 0 30).find? (breakCondB (obsHash fetch) load)
        with
      | some t2 => rw [hf] at hto; simp at hto
      | none =>
        have hfa := (find?_range'_eq_none _ 0 30).mp hf t (by omega)
          (by omega)
        rw [(breakCondB_iff_cleanWindow _ _ t).mpr hclean] at hfa
        exact absurd hfa (by simp)
    · intro hall
      cases hf : (List.range' 0 30).find? (breakCondB (obsHash fetch) load)
        with
      | some t2 =>
        rw [find?_range'_eq_some] at hf
        obtain ⟨_, h2, h3, _⟩ := hf
        exact absurd ((breakCondB_iff_cleanWindow _ _ t2).mp h3)
          (hall t2 (by omega))
      | none => rfl
  · intro t
    rw [waitForContentStabilization_run]
    cases hf : (List.range' 0 30).find? (breakCondB (obsHash fetch) load)
      with
    | some t2 =>
      rw [find?_range'_eq_some] at hf
      obtain ⟨_, hlt2, hbreak2, hmin2⟩ := hf
      constructor
      · intro he
        have ht2 : t2 = t := by simpa using he
        subst ht2
        refine ⟨by omega, (breakCondB_iff_cleanWindow _ _ t2).mp hbreak2,
          ?_⟩
        intro u hu hclean
        have hfu := hmin2 u (by omega) hu
        rw [(breakCondB_iff_cleanWindow _ _ u).mpr hclean] at hfu
        exact absurd hfu (by simp)
      · rintro ⟨ht30, hclean, hmin⟩
        have hbt : breakCondB (obsHash fetch) load t = true :=
          (breakCondB_iff_cleanWindow _ _ t).mpr hclean
        have hnlt : ¬ t < t2 := by
          intro hlt'
          have := hmin2 t (by omega) hlt'
          rw [hbt] at this
          exact absurd this (by simp)
        have hnlt' : ¬ t2 < t := fun hlt' =>
          hmin t2 hlt' ((breakCondB_iff_cleanWindow _ _ t2).mp hbreak2)
        have heq : t2 = t := by omega
        simp [heq]
    | none =>
      constructor
      · intro he; exact absurd he (by simp)
      · rintro ⟨ht30, hclean, _⟩
        have hfa := (find?_range'_eq_none _ 0 30).mp hf t (by omega)
          (by omega)
        rw [(breakCondB_iff_cleanWindow _ _ t).mpr hclean] at hfa
        exact absurd hfa (by simp)

/-- C6 witness: a constant fingerprint with no loading activity yields a
clean window at tick 5 (2.5 s), extracted by applying the characterization
to the concrete stabilized run. -/
theorem content_stabilization_spec_witness :
    CleanWindow (obsHash constFetchEx) noLoadEx 5 :=
  (((content_stabilization_spec constFetchEx noLoadEx).2.2 5).mp
    (by decide)).2.1

end BrowserUseRsi
